import Mathlib

/-!
Verification of `src/vis/plotting/scatter.py`, a thin scatter-plot wrapper
over an external plotting engine (matplotlib).  The module exposes a single
function `plot(A, plt, s, c, **kwargs)` and a static table `camera_angles`.

Shallow embedding choices:
* the point matrix `A` is a list of rows of rationals together with its
  column count (numpy's `A.shape[1]`); column extraction `A[:,j]` is `col`;
* the plotting engine handle `plt` is `Option Engine`, where `Engine`
  records, opaquely, the (auto) axis bounds the engine computes when data is
  scattered on fresh axes (`get_xbound`/`get_ybound`/`get_zbound` right
  after `scatter`);
* a figure records the attached suptitle; an axes object records every
  attribute the wrapper sets: dimensionality, scattered columns, the size
  and color arguments forwarded to `scatter`, bounds, labels (text and font
  size), the label auto-rotation flags, and the camera view `(elev, azim)`
  set by `view_init`;
* keyword arguments are modelled twice: `Config`, a structure of `Option`
  fields (presence of the key in `kwargs`), consumed by `plot`; and an
  association list `List (String × PyVal)` consumed by `plotKw`, which
  extracts the recognized keys exactly as lines 89-105 of the source do and
  ignores everything else.  Configuration values are assumed to carry the
  types the docstring states for them;
* the raise of `TypeError` when `plt is None` becomes `Except.error`;
* since the source `plot` could, as module-level code, have read the
  module-global `camera_angles` table, the body is embedded as `plotM`
  taking the table as an explicit parameter, and `plot` is `plotM` applied
  to the actual table; the body never consults it, as in the source.
-/

/-- Dynamic (Python) values that can appear in `kwargs`: strings
(`label_prefix`, `label_fontsize`, `title`), integers (`label_fontsize`),
integer pairs (`euler`, `xbound`, `ybound`, `zbound`) and index tuples
(`axes`). -/
inductive PyVal where
  | vstr (s : String)
  | vint (n : Int)
  | vpair (p : Int × Int)
  | vidx (l : List Nat)
  deriving DecidableEq, Repr

/-- Font size for axis labels: the docstring allows `str` or `int`. -/
inductive FontSize where
  | fstr (s : String)
  | fint (n : Int)
  deriving DecidableEq, Repr

/-- The input point matrix: `data` holds the rows (numbers as rationals),
`ncols` is `A.shape[1]`. -/
structure NDArray where
  data : List (List Rat)
  ncols : Nat
  deriving DecidableEq

/-- Column `j` of the matrix, numpy's `A[:,j]`. -/
def col (A : NDArray) (j : Nat) : List Rat :=
  A.data.map (fun r => r.getD j 0)

/-- Opaque plotting-engine handle.  The three fields are the bounds the
engine computes automatically for the X, Y and Z axes once the data has
been scattered (what `get_xbound` etc. return before any `set_?bound`
with an explicit pair). -/
structure Engine where
  autoX : Int × Int
  autoY : Int × Int
  autoZ : Int × Int
  deriving DecidableEq, Repr

/-- A figure handle: the wrapper only ever attaches a suptitle. -/
structure Figure where
  suptitle : Option String
  deriving DecidableEq, Repr

/-- An axes handle, recording every attribute the wrapper sets.  `zbound`
and `zlabel` are `none` on 2-D axes; `rotateX/Y/Z` are the engine's
label auto-rotation flags (engine default `true`); `view` is the
`(elevation, azimuth)` pair set by `view_init`, `none` if never set. -/
structure Axes where
  is3d : Bool
  scatterData : List (List Rat)
  sizeUsed : Int
  colorUsed : String
  xbound : Int × Int
  ybound : Int × Int
  zbound : Option (Int × Int)
  xlabel : Option (String × FontSize)
  ylabel : Option (String × FontSize)
  zlabel : Option (String × FontSize)
  rotateX : Bool
  rotateY : Bool
  rotateZ : Bool
  view : Option (Int × Int)
  deriving DecidableEq, Repr

/-- Error raised by the wrapper itself: the `TypeError` for a missing
engine handle (the spec's `InvalidArgument` class). -/
inductive PlotError where
  | typeError (msg : String)
  deriving DecidableEq, Repr

/-- Resolved configuration: one `Option` field per recognized keyword, in
source order (lines 89-105).  `labelTemplate` models the source keyword
spelled l-a-b-e-l-underscore-p-r-e-f-i-x, the label template string. -/
structure Config where
  labelTemplate : Option String
  label_fontsize : Option FontSize
  axes : Option (List Nat)
  euler : Option (Int × Int)
  xbound : Option (Int × Int)
  ybound : Option (Int × Int)
  zbound : Option (Int × Int)
  title : Option String
  deriving DecidableEq, Repr

/-- The all-defaults configuration: no keyword supplied. -/
def defaultConfig : Config :=
  ⟨none, none, none, none, none, none, none, none⟩

/-- Python's `template.format(n)` for the one-slot templates used here:
the `\x7b:d\x7d` slot is replaced by the decimal rendering of `n`. -/
def pyFormat (template : String) (n : Nat) : String :=
  template.replace ("{:d}") (toString n)

/-- Default label template, the source's raw string `r"$f_\x7b:d\x7d$"`. -/
def defaultLabelTemplate : String := "$f_{:d}$"

/-- Default marker color, `mc.TABLEAU_COLORS` at key `tab:blue`. -/
def defaultColor : String := "#1f77b4"

/-- The type of the static camera-angle table: problem name to
dimensionality label to recommended (azimuth, elevation) pair. -/
def CameraTable : Type := List (String × List (String × (Int × Int)))

/-- The static `camera_angles` table, transcribed from lines 27-45. -/
def camera_angles : CameraTable := [
  ("dtlz2", [("3d", (60, 20)), ("4d", (-60, 30)), ("8d", (22, 21))]),
  ("dtlz2-nbi", [("3d", (60, 20)), ("4d", (-60, 30)), ("8d", (-60, 30))]),
  ("debmdk", [("3d", (-30, 15)), ("4d", (-20, 32)), ("8d", (-60, 30))]),
  ("debmdk-nbi", [("3d", (-60, 30)), ("4d", (-60, 30)), ("8d", (-60, 30))]),
  ("debmdk-all", [("3d", (-60, 30)), ("4d", (-60, 30)), ("8d", (-60, 30))]),
  ("debmdk-all-nbi", [("3d", (-60, 30)), ("4d", (-60, 30)), ("8d", (-60, 30))]),
  ("dtlz8", [("3d", (-60, 30)), ("4d", (-60, 30)), ("6d", (-60, 30)), ("8d", (-60, 30))]),
  ("dtlz8-nbi", [("3d", (-60, 30)), ("4d", (-60, 30)), ("6d", (-60, 30)), ("8d", (-60, 30))]),
  ("c2dtlz2", [("3d", (45, 15)), ("4d", (-20, 40)), ("5d", (-25, 30)), ("8d", (-25, 30))]),
  ("c2dtlz2-nbi", [("3d", (45, 15)), ("4d", (-20, 40)), ("5d", (-25, 30)), ("8d", (-25, 30))]),
  ("cdebmdk", [("3d", (20, 15)), ("4d", (-60, 30)), ("8d", (-60, 30))]),
  ("cdebmdk-nbi", [("3d", (20, 15)), ("4d", (-60, 30)), ("8d", (-60, 30))]),
  ("c0dtlz2", [("3d", (20, 25)), ("4d", (-60, 30)), ("8d", (-60, 30))]),
  ("c0dtlz2-nbi", [("3d", (20, 25)), ("4d", (-60, 30)), ("8d", (-60, 30))]),
  ("crash-nbi", [("3d", (30, 25))]),
  ("crash-c1-nbi", [("3d", (30, 25))]),
  ("crash-c2-nbi", [("3d", (30, 25))]),
  ("gaa", [("10d", (-60, 30))]),
  ("gaa-nbi", [("10d", (-60, 30))])]

/-- The body of the source `plot` (lines 89-133), with the module-global
`camera_angles` table passed explicitly as `table`.  The body never reads
`table`, exactly as the source body never names the module global. -/
def plotM (table : CameraTable) (A : NDArray) (plt : Option Engine)
    (s : Int) (c : String) (cfg : Config) : Except PlotError (Figure × Axes) :=
  -- lines 89-105: resolve keyword arguments against their defaults
  let lt := cfg.labelTemplate.getD defaultLabelTemplate
  let fs := cfg.label_fontsize.getD (FontSize.fstr ("large"))
  let axs := cfg.axes.getD [0, 1, 2]
  let eul := cfg.euler.getD (-60, 30)
  let xb := cfg.xbound
  let yb := cfg.ybound
  let zb := cfg.zbound
  let ttl := cfg.title
  match plt with
  | some eng =>
    -- line 108: fig = plt.figure()
    let fig0 : Figure := { suptitle := none }
    -- lines 109-110: if title is not None: fig.suptitle(title)
    let fig := match ttl with
      | some t => { fig0 with suptitle := some t }
      | none => fig0
    if A.ncols < 3 then
      -- lines 112-113: ax = fig.gca(); ax.scatter(A[:,axes[0]], A[:,axes[1]], s, c)
      let ax0 : Axes := {
        is3d := false
        scatterData := [col A (axs.getD 0 0), col A (axs.getD 1 0)]
        sizeUsed := s
        colorUsed := c
        xbound := eng.autoX
        ybound := eng.autoY
        zbound := none
        xlabel := none
        ylabel := none
        zlabel := none
        rotateX := true
        rotateY := true
        rotateZ := true
        view := none }
      -- line 114: ax.set_xbound(ax.get_xbound() if xbound is None else xbound)
      let ax1 := { ax0 with xbound := match xb with | none => ax0.xbound | some b => b }
      -- line 115: ax.set_ybound(ax.get_ybound() if ybound is None else ybound)
      let ax2 := { ax1 with ybound := match yb with | none => ax1.ybound | some b => b }
      -- lines 116-117: ax.set_xlabel / ax.set_ylabel with 1-based indices
      let ax3 := { ax2 with xlabel := some (pyFormat lt (axs.getD 0 0 + 1), fs) }
      let ax4 := { ax3 with ylabel := some (pyFormat lt (axs.getD 1 0 + 1), fs) }
      Except.ok (fig, ax4)
    else
      -- lines 119-120: ax = Axes3D(fig); ax.scatter(three columns, s, c)
      let ax0 : Axes := {
        is3d := true
        scatterData := [col A (axs.getD 0 0), col A (axs.getD 1 0), col A (axs.getD 2 0)]
        sizeUsed := s
        colorUsed := c
        xbound := eng.autoX
        ybound := eng.autoY
        zbound := some eng.autoZ
        xlabel := none
        ylabel := none
        zlabel := none
        rotateX := true
        rotateY := true
        rotateZ := true
        view := none }
      -- lines 121-123: set_xbound / set_ybound / set_zbound
      let ax1 := { ax0 with xbound := match xb with | none => ax0.xbound | some b => b }
      let ax2 := { ax1 with ybound := match yb with | none => ax1.ybound | some b => b }
      let ax3 := { ax2 with zbound := match zb with | none => ax2.zbound | some b => some b }
      -- lines 124-126: set_xlabel / set_ylabel / set_zlabel with 1-based indices
      let ax4 := { ax3 with xlabel := some (pyFormat lt (axs.getD 0 0 + 1), fs) }
      let ax5 := { ax4 with ylabel := some (pyFormat lt (axs.getD 1 0 + 1), fs) }
      let ax6 := { ax5 with zlabel := some (pyFormat lt (axs.getD 2 0 + 1), fs) }
      -- lines 127-129: set_rotate_label(False) on all three axes
      let ax7 := { ax6 with rotateX := false, rotateY := false, rotateZ := false }
      -- line 130: ax.view_init(euler[1], euler[0]), i.e. (elev, azim)
      let ax8 := { ax7 with view := some (eul.2, eul.1) }
      Except.ok (fig, ax8)
  | none =>
    -- line 133: raise TypeError(...)
    Except.error (PlotError.typeError
      ("A valid `matplotlib.pyplot` object must be provided."))

/-- The exported `plot`, the source body closed over the module-global
`camera_angles`. -/
def plot (A : NDArray) (plt : Option Engine) (s : Int) (c : String)
    (cfg : Config) : Except PlotError (Figure × Axes) :=
  plotM camera_angles A plt s c cfg

/-- Lookup of a key in the `kwargs` association list (Python dict access). -/
def lookupKw (kw : List (String × PyVal)) (k : String) : Option PyVal :=
  (kw.find? (fun e => e.1 == k)).map (fun e => e.2)

/-- The keyword names the source reads from `kwargs` (lines 89-105). -/
def knownKeys : List String :=
  ["label_prefix", "label_fontsize", "axes", "euler",
   "xbound", "ybound", "zbound", "title"]

/-- Extract the recognized keywords from a `kwargs` dictionary into a
`Config`, as lines 89-105 do; every other key is left untouched.  Values
are assumed to have their documented types. -/
def parseKwargs (kw : List (String × PyVal)) : Config where
  labelTemplate := match lookupKw kw ("label_prefix") with
    | some (PyVal.vstr s) => some s
    | _ => none
  label_fontsize := match lookupKw kw ("label_fontsize") with
    | some (PyVal.vstr s) => some (FontSize.fstr s)
    | some (PyVal.vint n) => some (FontSize.fint n)
    | _ => none
  axes := match lookupKw kw ("axes") with
    | some (PyVal.vidx l) => some l
    | _ => none
  euler := match lookupKw kw ("euler") with
    | some (PyVal.vpair p) => some p
    | _ => none
  xbound := match lookupKw kw ("xbound") with
    | some (PyVal.vpair p) => some p
    | _ => none
  ybound := match lookupKw kw ("ybound") with
    | some (PyVal.vpair p) => some p
    | _ => none
  zbound := match lookupKw kw ("zbound") with
    | some (PyVal.vpair p) => some p
    | _ => none
  title := match lookupKw kw ("title") with
    | some (PyVal.vstr s) => some s
    | _ => none

/-- `plot` called with a raw `kwargs` dictionary, as in Python. -/
def plotKw (A : NDArray) (plt : Option Engine) (s : Int) (c : String)
    (kw : List (String × PyVal)) : Except PlotError (Figure × Axes) :=
  plot A plt s c (parseKwargs kw)

/-- The figure `plot` returns: suptitle attached exactly when `title` is
set. -/
def figOf (cfg : Config) : Figure := { suptitle := cfg.title }

/-- The axes `plot` returns on the 2-D branch (`A.shape[1] < 3`). -/
def axes2Of (A : NDArray) (eng : Engine) (s : Int) (c : String)
    (cfg : Config) : Axes :=
  let lt := cfg.labelTemplate.getD defaultLabelTemplate
  let fs := cfg.label_fontsize.getD (FontSize.fstr ("large"))
  let axs := cfg.axes.getD [0, 1, 2]
  { is3d := false
    scatterData := [col A (axs.getD 0 0), col A (axs.getD 1 0)]
    sizeUsed := s
    colorUsed := c
    xbound := cfg.xbound.getD eng.autoX
    ybound := cfg.ybound.getD eng.autoY
    zbound := none
    xlabel := some (pyFormat lt (axs.getD 0 0 + 1), fs)
    ylabel := some (pyFormat lt (axs.getD 1 0 + 1), fs)
    zlabel := none
    rotateX := true
    rotateY := true
    rotateZ := true
    view := none }

/-- The axes `plot` returns on the 3-D branch (`A.shape[1] >= 3`). -/
def axes3Of (A : NDArray) (eng : Engine) (s : Int) (c : String)
    (cfg : Config) : Axes :=
  let lt := cfg.labelTemplate.getD defaultLabelTemplate
  let fs := cfg.label_fontsize.getD (FontSize.fstr ("large"))
  let axs := cfg.axes.getD [0, 1, 2]
  let eul := cfg.euler.getD (-60, 30)
  { is3d := true
    scatterData := [col A (axs.getD 0 0), col A (axs.getD 1 0), col A (axs.getD 2 0)]
    sizeUsed := s
    colorUsed := c
    xbound := cfg.xbound.getD eng.autoX
    ybound := cfg.ybound.getD eng.autoY
    zbound := some (cfg.zbound.getD eng.autoZ)
    xlabel := some (pyFormat lt (axs.getD 0 0 + 1), fs)
    ylabel := some (pyFormat lt (axs.getD 1 0 + 1), fs)
    zlabel := some (pyFormat lt (axs.getD 2 0 + 1), fs)
    rotateX := false
    rotateY := false
    rotateZ := false
    view := some (eul.2, eul.1) }

/-- Characterization of `plot` on a present engine handle: the update
chain of the source collapses to the explicit records above. -/
theorem plot_some_eq (A : NDArray) (eng : Engine) (s : Int) (c : String)
    (cfg : Config) :
    plot A (some eng) s c cfg =
      if A.ncols < 3 then
        Except.ok (figOf cfg, axes2Of A eng s c cfg)
      else
        Except.ok (figOf cfg, axes3Of A eng s c cfg) := by
  obtain ⟨lt, fs, axs, eu, xb, yb, zb, tt⟩ := cfg
  by_cases h3 : A.ncols < 3 <;>
    cases tt <;> cases xb <;> cases yb <;> cases zb <;>
    simp [plot, plotM, figOf, axes2Of, axes3Of, h3]

/-- Sample 2-column matrix for witnesses. -/
def A2 : NDArray := ⟨[[1, 2], [3, 4]], 2⟩

/-- Sample 3-column matrix for witnesses. -/
def A3 : NDArray := ⟨[[1, 2, 3], [4, 5, 6]], 3⟩

/-- Sample engine handle for witnesses. -/
def eng0 : Engine := ⟨(0, 1), (0, 2), (0, 3)⟩

/-- Sample configuration with all three bounds supplied. -/
def cfgBounds : Config :=
  ⟨none, none, none, none, some (1, 5), some (2, 6), some (3, 7), none⟩

/-- Sample configuration with a title, as in the spec example. -/
def cfgTitled : Config :=
  ⟨none, none, none, none, none, none, none, some ("Front")⟩

/-- C1: calling `plot` with an absent engine handle (`plt = none`) always
fails with the `TypeError` (the spec's `InvalidArgument` class); the
result is a bare error, so no figure or axes is created. -/
theorem plot_none_fails (A : NDArray) (s : Int) (c : String) (cfg : Config) :
    plot A none s c cfg =
      Except.error (PlotError.typeError
        ("A valid `matplotlib.pyplot` object must be provided.")) := rfl

/-- C2: for a matrix with at least 2 columns and a present engine handle,
`plot` with the default configuration returns a (figure, axes) pair. -/
theorem plot_default_returns_pair (A : NDArray) (eng : Engine) (s : Int)
    (c : String) (h : 2 ≤ A.ncols) :
    ∃ fig ax, plot A (some eng) s c defaultConfig = Except.ok (fig, ax) := by
  rcases Nat.lt_or_ge A.ncols 3 with h3 | h3
  · exact ⟨figOf defaultConfig, axes2Of A eng s c defaultConfig,
      by rw [plot_some_eq, if_pos h3]⟩
  · exact ⟨figOf defaultConfig, axes3Of A eng s c defaultConfig,
      by rw [plot_some_eq, if_neg (Nat.not_lt.mpr h3)]⟩

/-- Witness for C2 at a concrete 2-column matrix and engine. -/
theorem plot_default_returns_pair_witness :
    2 ≤ A2.ncols ∧
    ∃ fig ax, plot A2 (some eng0) 1 defaultColor defaultConfig =
      Except.ok (fig, ax) :=
  ⟨by decide, plot_default_returns_pair A2 eng0 1 defaultColor (by decide)⟩

/-- C3: on a matrix with exactly 2 columns, `plot` returns 2-D axes
scattering the two selected columns, with no Z bound and no Z label. -/
theorem plot_two_columns_2d (A : NDArray) (eng : Engine) (s : Int)
    (c : String) (cfg : Config) (fig : Figure) (ax : Axes)
    (h : A.ncols = 2)
    (hp : plot A (some eng) s c cfg = Except.ok (fig, ax)) :
    ax.is3d = false ∧
    ax.scatterData =
      [col A ((cfg.axes.getD [0, 1, 2]).getD 0 0),
       col A ((cfg.axes.getD [0, 1, 2]).getD 1 0)] ∧
    ax.zbound = none ∧ ax.zlabel = none := by
  rw [plot_some_eq, if_pos (show A.ncols < 3 by omega)] at hp
  obtain ⟨rfl, rfl⟩ : fig = figOf cfg ∧ ax = axes2Of A eng s c cfg := by
    simpa using hp.symm
  exact ⟨rfl, rfl, rfl, rfl⟩

/-- Witness for C3 at a concrete 2-column matrix, engine and the default
configuration. -/
theorem plot_two_columns_2d_witness :
    A2.ncols = 2 ∧
    (plot A2 (some eng0) 1 defaultColor defaultConfig =
      Except.ok (figOf defaultConfig, axes2Of A2 eng0 1 defaultColor defaultConfig)) ∧
    ((axes2Of A2 eng0 1 defaultColor defaultConfig).is3d = false ∧
     (axes2Of A2 eng0 1 defaultColor defaultConfig).scatterData =
       [col A2 ((defaultConfig.axes.getD [0, 1, 2]).getD 0 0),
        col A2 ((defaultConfig.axes.getD [0, 1, 2]).getD 1 0)] ∧
     (axes2Of A2 eng0 1 defaultColor defaultConfig).zbound = none ∧
     (axes2Of A2 eng0 1 defaultColor defaultConfig).zlabel = none) :=
  ⟨by decide, by rfl,
   plot_two_columns_2d A2 eng0 1 defaultColor defaultConfig
     (figOf defaultConfig) (axes2Of A2 eng0 1 defaultColor defaultConfig)
     (by decide) (by rfl)⟩

/-- C4: on a matrix with 3 or more columns, `plot` returns 3-D axes
scattering the three selected columns, labels all three axes with the
template applied to the 1-based indices at the requested font size, and
disables automatic label rotation on all three axes. -/
theorem plot_three_columns_3d (A : NDArray) (eng : Engine) (s : Int)
    (c : String) (cfg : Config) (fig : Figure) (ax : Axes)
    (h : 3 ≤ A.ncols)
    (hp : plot A (some eng) s c cfg = Except.ok (fig, ax)) :
    ax.is3d = true ∧
    ax.scatterData =
      [col A ((cfg.axes.getD [0, 1, 2]).getD 0 0),
       col A ((cfg.axes.getD [0, 1, 2]).getD 1 0),
       col A ((cfg.axes.getD [0, 1, 2]).getD 2 0)] ∧
    ax.xlabel = some (pyFormat (cfg.labelTemplate.getD defaultLabelTemplate)
        ((cfg.axes.getD [0, 1, 2]).getD 0 0 + 1),
      cfg.label_fontsize.getD (FontSize.fstr ("large"))) ∧
    ax.ylabel = some (pyFormat (cfg.labelTemplate.getD defaultLabelTemplate)
        ((cfg.axes.getD [0, 1, 2]).getD 1 0 + 1),
      cfg.label_fontsize.getD (FontSize.fstr ("large"))) ∧
    ax.zlabel = some (pyFormat (cfg.labelTemplate.getD defaultLabelTemplate)
        ((cfg.axes.getD [0, 1, 2]).getD 2 0 + 1),
      cfg.label_fontsize.getD (FontSize.fstr ("large"))) ∧
    ax.rotateX = false ∧ ax.rotateY = false ∧ ax.rotateZ = false := by
  rw [plot_some_eq, if_neg (Nat.not_lt.mpr h)] at hp
  obtain ⟨rfl, rfl⟩ : fig = figOf cfg ∧ ax = axes3Of A eng s c cfg := by
    simpa using hp.symm
  exact ⟨rfl, rfl, rfl, rfl, rfl, rfl, rfl, rfl⟩

/-- Witness for C4 at a concrete 3-column matrix, engine and the default
configuration: the labels come out as the spec example strings. -/
theorem plot_three_columns_3d_witness :
    3 ≤ A3.ncols ∧
    (plot A3 (some eng0) 1 defaultColor defaultConfig =
      Except.ok (figOf defaultConfig, axes3Of A3 eng0 1 defaultColor defaultConfig)) ∧
    ((axes3Of A3 eng0 1 defaultColor defaultConfig).is3d = true ∧
     (axes3Of A3 eng0 1 defaultColor defaultConfig).scatterData =
       [col A3 ((defaultConfig.axes.getD [0, 1, 2]).getD 0 0),
        col A3 ((defaultConfig.axes.getD [0, 1, 2]).getD 1 0),
        col A3 ((defaultConfig.axes.getD [0, 1, 2]).getD 2 0)] ∧
     (axes3Of A3 eng0 1 defaultColor defaultConfig).xlabel =
       some (pyFormat (defaultConfig.labelTemplate.getD defaultLabelTemplate)
           ((defaultConfig.axes.getD [0, 1, 2]).getD 0 0 + 1),
         defaultConfig.label_fontsize.getD (FontSize.fstr ("large"))) ∧
     (axes3Of A3 eng0 1 defaultColor defaultConfig).ylabel =
       some (pyFormat (defaultConfig.labelTemplate.getD defaultLabelTemplate)
           ((defaultConfig.axes.getD [0, 1, 2]).getD 1 0 + 1),
         defaultConfig.label_fontsize.getD (FontSize.fstr ("large"))) ∧
     (axes3Of A3 eng0 1 defaultColor defaultConfig).zlabel =
       some (pyFormat (defaultConfig.labelTemplate.getD defaultLabelTemplate)
           ((defaultConfig.axes.getD [0, 1, 2]).getD 2 0 + 1),
         defaultConfig.label_fontsize.getD (FontSize.fstr ("large"))) ∧
     (axes3Of A3 eng0 1 defaultColor defaultConfig).rotateX = false ∧
     (axes3Of A3 eng0 1 defaultColor defaultConfig).rotateY = false ∧
     (axes3Of A3 eng0 1 defaultColor defaultConfig).rotateZ = false) :=
  ⟨by decide, by rfl,
   plot_three_columns_3d A3 eng0 1 defaultColor defaultConfig
     (figOf defaultConfig) (axes3Of A3 eng0 1 defaultColor defaultConfig)
     (by decide) (by rfl)⟩

/-- C5: every bound supplied in the configuration is applied exactly to
the returned axes; the Z bound only has effect on the 3-D branch. -/
theorem plot_bounds_exact (A : NDArray) (eng : Engine) (s : Int)
    (c : String) (cfg : Config) (fig : Figure) (ax : Axes)
    (bx b2 bz : Int × Int)
    (hp : plot A (some eng) s c cfg = Except.ok (fig, ax)) :
    (cfg.xbound = some bx → ax.xbound = bx) ∧
    (cfg.ybound = some b2 → ax.ybound = b2) ∧
    (cfg.zbound = some bz → 3 ≤ A.ncols → ax.zbound = some bz) := by
  rw [plot_some_eq] at hp
  by_cases h3 : A.ncols < 3
  · rw [if_pos h3] at hp
    obtain ⟨rfl, rfl⟩ : fig = figOf cfg ∧ ax = axes2Of A eng s c cfg := by
      simpa using hp.symm
    refine ⟨fun hx => ?_, fun hy => ?_, fun _ h => absurd h (by omega)⟩
    · simp [axes2Of, hx]
    · simp [axes2Of, hy]
  · rw [if_neg h3] at hp
    obtain ⟨rfl, rfl⟩ : fig = figOf cfg ∧ ax = axes3Of A eng s c cfg := by
      simpa using hp.symm
    refine ⟨fun hx => ?_, fun hy => ?_, fun hz _ => ?_⟩
    · simp [axes3Of, hx]
    · simp [axes3Of, hy]
    · simp [axes3Of, hz]

/-- Witness for C5 at a 3-column matrix with all three bounds supplied. -/
theorem plot_bounds_exact_witness :
    (plot A3 (some eng0) 1 defaultColor cfgBounds =
      Except.ok (figOf cfgBounds, axes3Of A3 eng0 1 defaultColor cfgBounds)) ∧
    (axes3Of A3 eng0 1 defaultColor cfgBounds).xbound = (1, 5) ∧
    (axes3Of A3 eng0 1 defaultColor cfgBounds).ybound = (2, 6) ∧
    (axes3Of A3 eng0 1 defaultColor cfgBounds).zbound = some (3, 7) :=
  ⟨by rfl,
   (plot_bounds_exact A3 eng0 1 defaultColor cfgBounds
     (figOf cfgBounds) (axes3Of A3 eng0 1 defaultColor cfgBounds)
     (1, 5) (2, 6) (3, 7) (by rfl)).1 (by decide),
   (plot_bounds_exact A3 eng0 1 defaultColor cfgBounds
     (figOf cfgBounds) (axes3Of A3 eng0 1 defaultColor cfgBounds)
     (1, 5) (2, 6) (3, 7) (by rfl)).2.1 (by decide),
   (plot_bounds_exact A3 eng0 1 defaultColor cfgBounds
     (figOf cfgBounds) (axes3Of A3 eng0 1 defaultColor cfgBounds)
     (1, 5) (2, 6) (3, 7) (by rfl)).2.2 (by decide) (by decide)⟩

/-- C6: every bound left unset in the configuration keeps the engine's
automatically computed bound on the returned axes; the Z bound exists
only on the 3-D branch. -/
theorem plot_bounds_auto (A : NDArray) (eng : Engine) (s : Int)
    (c : String) (cfg : Config) (fig : Figure) (ax : Axes)
    (hp : plot A (some eng) s c cfg = Except.ok (fig, ax)) :
    (cfg.xbound = none → ax.xbound = eng.autoX) ∧
    (cfg.ybound = none → ax.ybound = eng.autoY) ∧
    (cfg.zbound = none → 3 ≤ A.ncols → ax.zbound = some eng.autoZ) := by
  rw [plot_some_eq] at hp
  by_cases h3 : A.ncols < 3
  · rw [if_pos h3] at hp
    obtain ⟨rfl, rfl⟩ : fig = figOf cfg ∧ ax = axes2Of A eng s c cfg := by
      simpa using hp.symm
    refine ⟨fun hx => ?_, fun hy => ?_, fun _ h => absurd h (by omega)⟩
    · simp [axes2Of, hx]
    · simp [axes2Of, hy]
  · rw [if_neg h3] at hp
    obtain ⟨rfl, rfl⟩ : fig = figOf cfg ∧ ax = axes3Of A eng s c cfg := by
      simpa using hp.symm
    refine ⟨fun hx => ?_, fun hy => ?_, fun hz _ => ?_⟩
    · simp [axes3Of, hx]
    · simp [axes3Of, hy]
    · simp [axes3Of, hz]

/-- Witness for C6 at a 3-column matrix with no bound supplied: all three
bounds are the engine's auto bounds. -/
theorem plot_bounds_auto_witness :
    (plot A3 (some eng0) 1 defaultColor defaultConfig =
      Except.ok (figOf defaultConfig, axes3Of A3 eng0 1 defaultColor defaultConfig)) ∧
    (axes3Of A3 eng0 1 defaultColor defaultConfig).xbound = eng0.autoX ∧
    (axes3Of A3 eng0 1 defaultColor defaultConfig).ybound = eng0.autoY ∧
    (axes3Of A3 eng0 1 defaultColor defaultConfig).zbound = some eng0.autoZ :=
  ⟨by rfl,
   (plot_bounds_auto A3 eng0 1 defaultColor defaultConfig
     (figOf defaultConfig) (axes3Of A3 eng0 1 defaultColor defaultConfig)
     (by rfl)).1 (by decide),
   (plot_bounds_auto A3 eng0 1 defaultColor defaultConfig
     (figOf defaultConfig) (axes3Of A3 eng0 1 defaultColor defaultConfig)
     (by rfl)).2.1 (by decide),
   (plot_bounds_auto A3 eng0 1 defaultColor defaultConfig
     (figOf defaultConfig) (axes3Of A3 eng0 1 defaultColor defaultConfig)
     (by rfl)).2.2 (by decide) (by decide)⟩

/-- C7: on the 3-D branch the camera is set via `view_init(euler[1],
euler[0])`, so the stored view is (elevation, azimuth) = (euler second
component, euler first component); with the default euler (-60, 30) this
is elevation 30, azimuth -60. -/
theorem plot_view_from_euler (A : NDArray) (eng : Engine) (s : Int)
    (c : String) (cfg : Config) (fig : Figure) (ax : Axes)
    (h : 3 ≤ A.ncols)
    (hp : plot A (some eng) s c cfg = Except.ok (fig, ax)) :
    ax.view = some ((cfg.euler.getD (-60, 30)).2, (cfg.euler.getD (-60, 30)).1) := by
  rw [plot_some_eq, if_neg (Nat.not_lt.mpr h)] at hp
  obtain ⟨rfl, rfl⟩ : fig = figOf cfg ∧ ax = axes3Of A eng s c cfg := by
    simpa using hp.symm
  rfl

/-- Witness for C7 at a 3-column matrix with the default configuration:
the view is elevation 30, azimuth -60. -/
theorem plot_view_from_euler_witness :
    3 ≤ A3.ncols ∧
    (plot A3 (some eng0) 1 defaultColor defaultConfig =
      Except.ok (figOf defaultConfig, axes3Of A3 eng0 1 defaultColor defaultConfig)) ∧
    (axes3Of A3 eng0 1 defaultColor defaultConfig).view = some (30, -60) :=
  ⟨by decide, by rfl,
   plot_view_from_euler A3 eng0 1 defaultColor defaultConfig
     (figOf defaultConfig) (axes3Of A3 eng0 1 defaultColor defaultConfig)
     (by decide) (by rfl)⟩

/-- C8: the suptitle attached to the returned figure is exactly the
configured title: the given string when set, absent when unset. -/
theorem plot_title_attached (A : NDArray) (eng : Engine) (s : Int)
    (c : String) (cfg : Config) (fig : Figure) (ax : Axes)
    (hp : plot A (some eng) s c cfg = Except.ok (fig, ax)) :
    fig.suptitle = cfg.title := by
  rw [plot_some_eq] at hp
  by_cases h3 : A.ncols < 3
  · rw [if_pos h3] at hp
    obtain ⟨rfl, rfl⟩ : fig = figOf cfg ∧ ax = axes2Of A eng s c cfg := by
      simpa using hp.symm
    rfl
  · rw [if_neg h3] at hp
    obtain ⟨rfl, rfl⟩ : fig = figOf cfg ∧ ax = axes3Of A eng s c cfg := by
      simpa using hp.symm
    rfl

/-- Witness for C8 at the spec example: a 2-column matrix with title
"Front" yields a figure whose suptitle is "Front". -/
theorem plot_title_attached_witness :
    (plot A2 (some eng0) 1 defaultColor cfgTitled =
      Except.ok (figOf cfgTitled, axes2Of A2 eng0 1 defaultColor cfgTitled)) ∧
    (figOf cfgTitled).suptitle = cfgTitled.title :=
  ⟨by rfl,
   plot_title_attached A2 eng0 1 defaultColor cfgTitled
     (figOf cfgTitled) (axes2Of A2 eng0 1 defaultColor cfgTitled) (by rfl)⟩

/-- C9: the renderer never reads the camera-angle table: its body applied
to any two table contents gives identical results, and the exported
`plot` is the body applied to the actual `camera_angles`. -/
theorem plot_ignores_camera_angles (t1 t2 : CameraTable) (A : NDArray)
    (plt : Option Engine) (s : Int) (c : String) (cfg : Config) :
    plotM t1 A plt s c cfg = plotM t2 A plt s c cfg ∧
    plotM t1 A plt s c cfg = plot A plt s c cfg :=
  ⟨rfl, rfl⟩

/-- First match in a filtered list: filtering by a predicate that holds on
every element the search predicate accepts does not change `find?`. -/
theorem find?_filter_eq {α : Type} (p q : α → Bool)
    (h : ∀ a, q a = true → p a = true) :
    ∀ l : List α, (l.filter p).find? q = l.find? q := by
  intro l
  induction l with
  | nil => rfl
  | cons e t ih =>
    by_cases hq : q e = true
    · rw [List.filter_cons, if_pos (h e hq)]
      simp [List.find?_cons, hq]
    · by_cases hp : p e = true
      · rw [List.filter_cons, if_pos hp]
        simp [List.find?_cons, hq, ih]
      · rw [List.filter_cons, if_neg hp, ih, List.find?_cons]
        simp [hq]

/-- Looking up a recognized key is unaffected by dropping the keys the
renderer does not read. -/
theorem lookupKw_filter_known (kw : List (String × PyVal)) (k : String)
    (hk : knownKeys.contains k = true) :
    lookupKw (kw.filter (fun e => knownKeys.contains e.1)) k = lookupKw kw k := by
  unfold lookupKw
  rw [find?_filter_eq]
  intro a ha
  have h1 : a.1 = k := by simpa using ha
  rw [h1]
  exact hk

/-- Dropping the unrecognized keys from `kwargs` leaves the resolved
configuration unchanged. -/
theorem parseKwargs_filter (kw : List (String × PyVal)) :
    parseKwargs (kw.filter (fun e => knownKeys.contains e.1)) = parseKwargs kw := by
  unfold parseKwargs
  rw [lookupKw_filter_known kw ("label_prefix") (by decide),
      lookupKw_filter_known kw ("label_fontsize") (by decide),
      lookupKw_filter_known kw ("axes") (by decide),
      lookupKw_filter_known kw ("euler") (by decide),
      lookupKw_filter_known kw ("xbound") (by decide),
      lookupKw_filter_known kw ("ybound") (by decide),
      lookupKw_filter_known kw ("zbound") (by decide),
      lookupKw_filter_known kw ("title") (by decide)]

/-- C10: keys other than the eight recognized ones are silently ignored:
no error is raised for them and the result equals the call with those
keys removed. -/
theorem plotKw_ignores_unknown_keys (A : NDArray) (plt : Option Engine)
    (s : Int) (c : String) (kw : List (String × PyVal)) :
    plotKw A plt s c kw =
      plotKw A plt s c (kw.filter (fun e => knownKeys.contains e.1)) := by
  unfold plotKw
  rw [parseKwargs_filter]
